import Mathlib

/-!
Verification development for the Ghibli-style storybook generator scripts
(`main.py`, `main2.py`, `main3.py`, `ani_pg.py`).

The scripts are a single linear pipeline: extract text from a PDF, ask a
language model for a JSON description of "animal interaction" records,
optionally describe a user photo, generate one illustration per record, and
assemble a multi-page PDF with a page-drawing canvas.

Shallow embedding conventions:
* External calls (the chat/image endpoints, PDF parsing, JSON parsing) are
  modelled as explicit parameters carrying their outcome (`Option`/`Except`),
  since the code treats them as opaque request/response services.
* The reportlab canvas is modelled as a state holding the finished pages and
  the draw list of the current page.  Text draws (`drawString`,
  `drawCentredString`) and image draws (`drawImage`) are recorded; purely
  decorative stroke/shape primitives (borders, circles, divider lines) carry
  no text or image content and are not recorded; a full-page background fill
  (`setFillColorRGB` + `rect(0, 0, page)`) is recorded as the page background.
* Python strings are Lean `String`s; the RGB float triples of the palette are
  exact decimal values and are modelled as rational triples.
-/

/-- One animal interaction entry parsed from the analyzer JSON
(`animal` / `description` / `interaction` fields). -/
structure InteractionRecord where
  animal : String
  description : String
  interaction : String
deriving DecidableEq, Repr

/-- RGB color, each channel an exact rational (the sources only use exact
decimal literals such as `0.95`). -/
abbrev Color := ℚ × ℚ × ℚ

/-- A recorded draw primitive on the current page: a text draw or an image
draw (payload is the base64/image data embedded). -/
inductive DrawOp where
  | text (s : String)
  | image (data : String)
deriving DecidableEq, Repr

/-- A finished page: optional full-page background fill plus the ordered draw
list. -/
structure Page where
  bg : Option Color
  ops : List DrawOp
deriving DecidableEq, Repr

/-- The reportlab canvas state: pages completed by `showPage`, the current
page background, and the current page draw list. -/
structure Canvas where
  pages : List Page
  curBg : Option Color
  cur : List DrawOp
deriving DecidableEq, Repr

def Canvas.empty : Canvas := ⟨[], none, []⟩

/-- `drawString` / `drawCentredString`. -/
def Canvas.drawText (c : Canvas) (s : String) : Canvas :=
  { c with cur := c.cur ++ [DrawOp.text s] }

/-- `drawImage`. -/
def Canvas.drawImage (c : Canvas) (d : String) : Canvas :=
  { c with cur := c.cur ++ [DrawOp.image d] }

/-- `setFillColorRGB(*bg)` followed by a full-page `rect(..., fill=True)`. -/
def Canvas.setBg (c : Canvas) (col : Color) : Canvas :=
  { c with curBg := some col }

/-- `showPage()`: close the current page and start a fresh one. -/
def Canvas.showPage (c : Canvas) : Canvas :=
  ⟨c.pages ++ [⟨c.curBg, c.cur⟩], none, []⟩

/-- Python `str.capitalize()`: first character uppercased, the rest
lowercased (ASCII approximation; all pronoun values are ASCII). -/
def pyCapitalize (s : String) : String :=
  match s.data with
  | [] => ""
  | c :: cs => String.mk (c.toUpper :: cs.map Char.toLower)

/-- Helper for Python `str.title()`: the boolean records whether the previous
character was alphabetic. -/
def pyTitleAux : Bool → List Char → List Char
  | _, [] => []
  | prevAlpha, c :: cs =>
    if c.isAlpha then
      (if prevAlpha then c.toLower else c.toUpper) :: pyTitleAux true cs
    else
      c :: pyTitleAux false cs

/-- Python `str.title()` (ASCII approximation; used only for the decorative
animal-page header `f"The {animal.title()}"`). -/
def pyTitle (s : String) : String :=
  String.mk (pyTitleAux false s.data)

/-- `extract_text_from_pdf` (identical in `main.py`, `main2.py`, `main3.py`).
The PDF parse outcome is the parameter: `none` models `PyPDF2.PdfReader`
raising (caught, reported, `None` returned); `some pages` is the per-page
`extract_text()` output in document order.  The loop appends each page's text
followed by `"\n"`. -/
def extract_text_from_pdf (pdfPages : Option (List String)) : Option String :=
  match pdfPages with
  | none => none
  | some pages => some (pages.foldl (fun t p => t ++ p ++ "\n") "")

/-- Modelled from the spec (§4.1 / §8, the claim under test): per-page texts
"joined by newline, in document order", i.e. a single newline between
consecutive pages and nothing after the last.  Kept separate from
`extract_text_from_pdf` (the source) to compare the two. -/
def extractJoinSpec (pages : List String) : String :=
  String.intercalate "\n" pages

/-- The fixed pronoun lookup table of `main2.py`/`main3.py`
(`create_stylish_storybook`): enum value ↦ {subject, object, possessive}. -/
structure Pronouns where
  subject : String
  objectCase : String
  possessive : String
deriving DecidableEq, Repr

/-- The `pronouns` dict of `create_stylish_storybook` (`main2.py` lines
194-198, `main3.py` lines 327-331), in insertion order. -/
def pronounsList : List (String × Pronouns) :=
  [("she/her", ⟨"she", "her", "her"⟩),
   ("he/him", ⟨"he", "him", "his"⟩),
   ("they/them", ⟨"they", "them", "their"⟩)]

/-- `child_description = f"{name}, a {gender.split('/')[0]} child" if name
else "a child"` (all variants). -/
def child_description (name gender : String) : String :=
  if name ≠ "" then name ++ ", a " ++ (gender.splitOn "/").headI ++ " child"
  else "a child"

/-! ### `main.py`: `create_storybook`

The scene generator `generate_ghibli_scene(child_description, animal_data,
photo_description)` is an external image API call; it is the parameter
`gen : String → Option String → InteractionRecord → Option String`
returning `some b64data` on success and `none` on the caught failure path
(`st.error` + `return None`).  The uploaded user photo is `user_image`
(`some data` when a photo was supplied). -/

/-- Body of the per-animal loop in `create_storybook` (`main.py` lines
170-200): generate the scene, draw the three story text lines, then the
image on success or the literal placeholder on failure, and close the page. -/
def animalStep1 (name cd : String) (pd : Option String)
    (gen : String → Option String → InteractionRecord → Option String)
    (r : InteractionRecord) (c : Canvas) : Canvas :=
  let img_data := gen cd pd r
  let c := c.drawText ("They sent " ++ name ++ " a " ++ r.animal ++ "...")
  let c := c.drawText ("but it was " ++ r.description ++ "!")
  let c := c.drawText r.interaction
  let c := match img_data with
           | some d => c.drawImage d
           | none => c.drawText "[Illustration not available]"
  c.showPage

/-- `for i, animal_data in enumerate(story_data): ...` in `create_storybook`
(the index is only used for progress output there). -/
def animalLoop1 (name cd : String) (pd : Option String)
    (gen : String → Option String → InteractionRecord → Option String) :
    List InteractionRecord → Canvas → Canvas
  | [], c => c
  | r :: rs, c => animalLoop1 name cd pd gen rs (animalStep1 name cd pd gen r c)

/-- `create_storybook` (`main.py` lines 125-211): cover, intro, one page per
record, end page; returns the finished page list (the serialized buffer). -/
def create_storybook (name gender : String) (story_data : List InteractionRecord)
    (photo_description user_image : Option String)
    (gen : String → Option String → InteractionRecord → Option String) :
    List Page :=
  let c := Canvas.empty
  let c := c.drawText (name ++ "'s Ghibli Zoo Adventure")
  let c := c.drawText "A magical Studio Ghibli-style story"
  let c := match user_image with
           | some d => c.drawImage d
           | none => c
  let c := c.showPage
  let cd := child_description name gender
  let c := c.drawText ("Once upon a time, " ++ name ++ " wrote to the zoo")
  let c := c.drawText "to send them a pet."
  let c := c.drawText "And so the zoo began to send animals..."
  let c := c.showPage
  let c := animalLoop1 name cd photo_description gen story_data c
  let c := c.drawText "The End"
  let c := c.drawText ("Hope you enjoyed your Ghibli adventure, " ++ name ++ "!")
  let c := c.showPage
  c.pages

/-! Declarative descriptions of the pages `create_storybook` emits, used to
state and prove its layout. -/

def coverPage1 (name : String) (user_image : Option String) : Page :=
  ⟨none, [DrawOp.text (name ++ "'s Ghibli Zoo Adventure"),
          DrawOp.text "A magical Studio Ghibli-style story"] ++
         (match user_image with
          | some d => [DrawOp.image d]
          | none => [])⟩

def introPage1 (name : String) : Page :=
  ⟨none, [DrawOp.text ("Once upon a time, " ++ name ++ " wrote to the zoo"),
          DrawOp.text "to send them a pet.",
          DrawOp.text "And so the zoo began to send animals..."]⟩

def animalPage1 (name cd : String) (pd : Option String)
    (gen : String → Option String → InteractionRecord → Option String)
    (r : InteractionRecord) : Page :=
  ⟨none, [DrawOp.text ("They sent " ++ name ++ " a " ++ r.animal ++ "..."),
          DrawOp.text ("but it was " ++ r.description ++ "!"),
          DrawOp.text r.interaction] ++
         (match gen cd pd r with
          | some d => [DrawOp.image d]
          | none => [DrawOp.text "[Illustration not available]"])⟩

def endPage1 (name : String) : Page :=
  ⟨none, [DrawOp.text "The End",
          DrawOp.text ("Hope you enjoyed your Ghibli adventure, " ++ name ++ "!")]⟩

lemma animalStep1_eq (name cd : String) (pd : Option String)
    (gen : String → Option String → InteractionRecord → Option String)
    (r : InteractionRecord) (c : Canvas) (hcur : c.cur = []) (hbg : c.curBg = none) :
    animalStep1 name cd pd gen r c =
      ⟨c.pages ++ [animalPage1 name cd pd gen r], none, []⟩ := by
  unfold animalStep1 animalPage1
  cases hg : gen cd pd r <;>
    simp [Canvas.drawText, Canvas.drawImage, Canvas.showPage, hcur, hbg, hg]

lemma animalLoop1_eq (name cd : String) (pd : Option String)
    (gen : String → Option String → InteractionRecord → Option String)
    (rs : List InteractionRecord) :
    ∀ c : Canvas, c.cur = [] → c.curBg = none →
      animalLoop1 name cd pd gen rs c =
        ⟨c.pages ++ rs.map (animalPage1 name cd pd gen), none, []⟩ := by
  induction rs with
  | nil => intro c hcur hbg; cases c; simp_all [animalLoop1]
  | cons r rs ih =>
    intro c hcur hbg
    rw [animalLoop1, animalStep1_eq name cd pd gen r c hcur hbg, ih _ rfl rfl]
    simp

lemma animalLoop1_pages (name cd : String) (pd : Option String)
    (gen : String → Option String → InteractionRecord → Option String)
    (rs : List InteractionRecord) (ps : List Page) :
    animalLoop1 name cd pd gen rs ⟨ps, none, []⟩ =
      ⟨ps ++ rs.map (animalPage1 name cd pd gen), none, []⟩ :=
  animalLoop1_eq name cd pd gen rs ⟨ps, none, []⟩ rfl rfl

/-- Layout of `create_storybook`: cover, intro, the animal pages in the
sequence's original order, then the end page. -/
lemma create_storybook_eq (name gender : String)
    (story_data : List InteractionRecord) (pd ui : Option String)
    (gen : String → Option String → InteractionRecord → Option String) :
    create_storybook name gender story_data pd ui gen =
      coverPage1 name ui :: introPage1 name ::
        (story_data.map (animalPage1 name (child_description name gender) pd gen) ++
          [endPage1 name]) := by
  cases hui : ui <;>
    simp [create_storybook, Canvas.empty, Canvas.drawText, Canvas.drawImage,
      Canvas.showPage, animalLoop1_pages, coverPage1, introPage1, endPage1, hui]

/-! ### `main2.py`: `create_stylish_storybook`

Same pipeline with a pronoun lookup (`chosen_pronouns = pronouns[gender]`, a
`KeyError` for any key outside the table, modelled as `Except.error`), pastel
page backgrounds from a palette shuffled once per document, and extra
decorative text.  The shuffled palette is the parameter `page_colors`: in the
source it is always `random.shuffle` applied to a copy of `PASTEL_COLORS`,
i.e. a permutation of the 8-entry palette, so the `getD` fallback color below
is unreachable. -/

/-- `PASTEL_COLORS` (`main2.py` lines 23-32, identical in `main3.py`), as
exact rationals: 0.95 = 19/20, 0.98 = 49/50, 0.9 = 9/10, 0.97 = 97/100. -/
def PASTEL_COLORS : List Color :=
  [(1, 19/20, 19/20), (19/20, 1, 19/20), (19/20, 19/20, 1), (1, 1, 19/20),
   (1, 19/20, 1), (19/20, 1, 1), (1, 49/50, 9/10), (97/100, 19/20, 1)]

/-- Python list indexing `page_colors[i]` (total here via `getD`; every call
in the source has `i < page_colors.length`, see the module comment above). -/
def colorAt (page_colors : List Color) (i : Nat) : Color :=
  page_colors.getD i (0, 0, 0)

/-- Body of the per-animal loop in `create_stylish_storybook` (`main2.py`
lines 319-392): background `page_colors[i % len(page_colors)]`, decorative
header, the scene call, three story lines, image or placeholder, page
number. -/
def animalStep2 (name cd : String) (pd : Option String) (page_colors : List Color)
    (gen : String → Option String → InteractionRecord → Option String)
    (i : Nat) (r : InteractionRecord) (c : Canvas) : Canvas :=
  let c := c.setBg (colorAt page_colors (i % page_colors.length))
  let c := c.drawText ("The " ++ pyTitle r.animal)
  let img_data := gen cd pd r
  let c := c.drawText ("They sent " ++ name ++ " a " ++ r.animal ++ "...")
  let c := c.drawText ("But it was " ++ r.description ++ "!")
  let c := c.drawText r.interaction
  let c := match img_data with
           | some d => c.drawImage d
           | none => c.drawText "[Illustration not available]"
  let c := c.drawText (toString (i + 1))
  c.showPage

/-- `for i, animal_data in enumerate(story_data): ...` with the running
index. -/
def animalLoop2 (name cd : String) (pd : Option String) (page_colors : List Color)
    (gen : String → Option String → InteractionRecord → Option String) :
    Nat → List InteractionRecord → Canvas → Canvas
  | _, [], c => c
  | i, r :: rs, c =>
    animalLoop2 name cd pd page_colors gen (i + 1) rs
      (animalStep2 name cd pd page_colors gen i r c)

/-- `create_stylish_storybook` (`main2.py` lines 192-452).  The pronoun
lookup is the first statement; a gender outside the table raises `KeyError`
before any page is drawn (modelled as `Except.error`). -/
def create_stylish_storybook (name gender : String)
    (story_data : List InteractionRecord) (photo_description user_image : Option String)
    (page_colors : List Color)
    (gen : String → Option String → InteractionRecord → Option String) :
    Except String (List Page) :=
  match pronounsList.lookup gender with
  | none => Except.error ("KeyError: " ++ gender)
  | some chosen =>
    let c := Canvas.empty
    let c := c.setBg (1, 49/50, 9/10)
    let title_text := name ++ "'s Magical Ghibli Zoo Adventure"
    let c := c.drawText title_text
    let c := c.drawText title_text
    let c := c.drawText "A whimsical Studio Ghibli-style adventure"
    let c := match user_image with
             | some d => c.drawImage d
             | none => c
    let c := c.drawText ("Created especially for " ++ name)
    let c := c.drawText "April 2025"
    let c := c.showPage
    let cd := child_description name gender
    let c := c.setBg (colorAt page_colors 0)
    let c := c.drawText "The Adventure Begins..."
    let c := c.drawText "Once upon a time, in a house filled with dreams,"
    let c := c.drawText (name ++ " wrote a special letter to the zoo.")
    let c := c.drawText (pyCapitalize chosen.subject ++ " asked them to send a perfect pet,")
    let c := c.drawText "and so their magical journey began..."
    let c := c.drawText "The Zoo"
    let c := c.drawText "Where magical animals"
    let c := c.drawText "were waiting to be discovered..."
    let c := c.showPage
    let c := animalLoop2 name cd photo_description page_colors gen 0 story_data c
    let c := c.setBg (19/20, 49/50, 1)
    let c := c.drawText "The End"
    let c := c.drawText "The End"
    let c := c.drawText ("And finally, they sent " ++ name ++ " a...")
    let c := c.drawText "Perfect Pet!"
    let c := c.drawText ("It was just what " ++ chosen.subject ++ " wanted!")
    let c := c.drawText ("Hope you enjoyed your magical Ghibli adventure, " ++ name ++ "!")
    let c := c.drawText "Every story has a happy ending..."
    let c := c.showPage
    Except.ok c.pages

/-! Declarative descriptions of the pages `create_stylish_storybook` emits. -/

def coverPage2 (name : String) (user_image : Option String) : Page :=
  ⟨some (1, 49/50, 9/10),
   [DrawOp.text (name ++ "'s Magical Ghibli Zoo Adventure"),
    DrawOp.text (name ++ "'s Magical Ghibli Zoo Adventure"),
    DrawOp.text "A whimsical Studio Ghibli-style adventure"] ++
   (match user_image with
    | some d => [DrawOp.image d]
    | none => []) ++
   [DrawOp.text ("Created especially for " ++ name),
    DrawOp.text "April 2025"]⟩

def introPage2 (name : String) (chosen : Pronouns) (page_colors : List Color) : Page :=
  ⟨some (colorAt page_colors 0),
   [DrawOp.text "The Adventure Begins...",
    DrawOp.text "Once upon a time, in a house filled with dreams,",
    DrawOp.text (name ++ " wrote a special letter to the zoo."),
    DrawOp.text (pyCapitalize chosen.subject ++ " asked them to send a perfect pet,"),
    DrawOp.text "and so their magical journey began...",
    DrawOp.text "The Zoo",
    DrawOp.text "Where magical animals",
    DrawOp.text "were waiting to be discovered..."]⟩

def animalPage2 (name cd : String) (pd : Option String) (page_colors : List Color)
    (gen : String → Option String → InteractionRecord → Option String)
    (i : Nat) (r : InteractionRecord) : Page :=
  ⟨some (colorAt page_colors (i % page_colors.length)),
   [DrawOp.text ("The " ++ pyTitle r.animal),
    DrawOp.text ("They sent " ++ name ++ " a " ++ r.animal ++ "..."),
    DrawOp.text ("But it was " ++ r.description ++ "!"),
    DrawOp.text r.interaction] ++
   (match gen cd pd r with
    | some d => [DrawOp.image d]
    | none => [DrawOp.text "[Illustration not available]"]) ++
   [DrawOp.text (toString (i + 1))]⟩

def endPage2 (name : String) (chosen : Pronouns) : Page :=
  ⟨some (19/20, 49/50, 1),
   [DrawOp.text "The End",
    DrawOp.text "The End",
    DrawOp.text ("And finally, they sent " ++ name ++ " a..."),
    DrawOp.text "Perfect Pet!",
    DrawOp.text ("It was just what " ++ chosen.subject ++ " wanted!"),
    DrawOp.text ("Hope you enjoyed your magical Ghibli adventure, " ++ name ++ "!"),
    DrawOp.text "Every story has a happy ending..."]⟩

lemma animalStep2_eq (name cd : String) (pd : Option String)
    (page_colors : List Color)
    (gen : String → Option String → InteractionRecord → Option String)
    (i : Nat) (r : InteractionRecord) (c : Canvas)
    (hcur : c.cur = []) (hbg : c.curBg = none) :
    animalStep2 name cd pd page_colors gen i r c =
      ⟨c.pages ++ [animalPage2 name cd pd page_colors gen i r], none, []⟩ := by
  unfold animalStep2 animalPage2
  cases hg : gen cd pd r <;>
    simp [Canvas.drawText, Canvas.drawImage, Canvas.setBg, Canvas.showPage,
      hcur, hbg, hg]

lemma animalLoop2_eq (name cd : String) (pd : Option String)
    (page_colors : List Color)
    (gen : String → Option String → InteractionRecord → Option String)
    (rs : List InteractionRecord) :
    ∀ (i : Nat) (c : Canvas), c.cur = [] → c.curBg = none →
      animalLoop2 name cd pd page_colors gen i rs c =
        ⟨c.pages ++
           ((List.range rs.length).zip rs).map
             (fun p => animalPage2 name cd pd page_colors gen (i + p.1) p.2),
         none, []⟩ := by
  induction rs with
  | nil => intro i c hcur hbg; cases c; simp_all [animalLoop2]
  | cons r rs ih =>
    intro i c hcur hbg
    rw [animalLoop2, animalStep2_eq name cd pd page_colors gen i r c hcur hbg,
      ih (i + 1) _ rfl rfl]
    simp [List.range_succ_eq_map, List.zip_map_left]
    intro a b _
    congr 1
    omega

lemma animalLoop2_pages (name cd : String) (pd : Option String)
    (page_colors : List Color)
    (gen : String → Option String → InteractionRecord → Option String)
    (rs : List InteractionRecord) (ps : List Page) :
    animalLoop2 name cd pd page_colors gen 0 rs ⟨ps, none, []⟩ =
      ⟨ps ++
         ((List.range rs.length).zip rs).map
           (fun p => animalPage2 name cd pd page_colors gen p.1 p.2),
       none, []⟩ := by
  rw [animalLoop2_eq name cd pd page_colors gen rs 0 ⟨ps, none, []⟩ rfl rfl]
  simp

/-- Layout of `create_stylish_storybook` when the pronoun lookup succeeds:
cover, intro, the animal pages (with their running index) in the sequence's
original order, then the end page. -/
lemma create_stylish_storybook_eq (name gender : String)
    (story_data : List InteractionRecord) (pd ui : Option String)
    (page_colors : List Color)
    (gen : String → Option String → InteractionRecord → Option String)
    (chosen : Pronouns) (h : pronounsList.lookup gender = some chosen) :
    create_stylish_storybook name gender story_data pd ui page_colors gen =
      Except.ok (coverPage2 name ui :: introPage2 name chosen page_colors ::
        (((List.range story_data.length).zip story_data).map
            (fun p => animalPage2 name (child_description name gender) pd
              page_colors gen p.1 p.2) ++
          [endPage2 name chosen])) := by
  unfold create_stylish_storybook
  rw [h]
  cases hui : ui <;>
    simp [Canvas.empty, Canvas.drawText, Canvas.drawImage, Canvas.setBg,
      Canvas.showPage, animalLoop2_pages, coverPage2, introPage2, endPage2, hui]

/-! ### `main3.py`: the character-base-generator variant

`create_stylish_storybook` in `main3.py` (lines 325-619) adds, before the
cover page, a two-step consistency setup: generate one base reference image
of the child (`generate_ghibli_child_base`, an external image call, modelled
by the parameter `child_base_img_data : Option String`) and, from it, a
detailed textual description (`generate_detailed_child_description`, an
external vision call whose outcome is the parameter
`descApi : Except Unit String`, `Except.error` modelling a raised
exception).  The per-animal scene call takes the detailed description as an
extra argument. -/

/-- The hard-coded fallback returned by the `except` handler of
`generate_detailed_child_description` (`main3.py` line 275). -/
def fallbackDescApi (name : String) : String :=
  "A child named " ++ name ++ " in Ghibli style with soft features and expressive eyes"

/-- The hard-coded fallback substituted inside `create_stylish_storybook`
when the detailed description is falsy (`main3.py` line 373). -/
def fallbackDescLocal (name : String) : String :=
  "A child named " ++ name ++ " with Ghibli-style features and expressive eyes"

/-- `generate_detailed_child_description` (`main3.py` lines 215-275): `None`
when no base image is given; on a successful vision call the description
(with the photo description appended when available); on any exception the
hard-coded fallback string. -/
def generate_detailed_child_description (child_base_img_data : Option String)
    (name : String) (photo_description : Option String)
    (descApi : Except Unit String) : Option String :=
  match child_base_img_data with
  | none => none
  | some _ =>
    match descApi with
    | Except.error _ => some (fallbackDescApi name)
    | Except.ok d =>
      some (match photo_description with
            | some p =>
              d ++ "\n\nAdditional distinctive features from the reference photo: " ++ p
            | none => d)

/-- The base-image setup of `create_stylish_storybook` (`main3.py` lines
349-377): the value `detailed_child_desc` holds when the animal-page loop
starts.  If the base image failed, it is `None` (with a warning); if the
detailed description came back falsy, the local fallback string is
substituted. -/
def detailedChildDesc (name : String) (photo_description : Option String)
    (child_base_img_data : Option String) (descApi : Except Unit String) :
    Option String :=
  match child_base_img_data with
  | some img =>
    match generate_detailed_child_description (some img) name photo_description descApi with
    | some d => if d = "" then some (fallbackDescLocal name) else some d
    | none => some (fallbackDescLocal name)
  | none => none

/-- `create_stylish_storybook` of `main3.py`.  The page-visible layout is
that of `main2.py` (same cover/intro/end text, same palette use); the scene
generator `gen` additionally receives `detailed_child_desc`
(`generate_ghibli_scene(child_description, animal_data, photo_description,
child_base_image, detailed_child_desc)`; the base image itself is unused in
the prompt).  The animal-page loop is `animalLoop2` with the scene call
partially applied to the fixed detailed description. -/
def create_stylish_storybook_v3 (name gender : String)
    (story_data : List InteractionRecord) (photo_description user_image : Option String)
    (page_colors : List Color) (child_base_img_data : Option String)
    (descApi : Except Unit String)
    (gen : String → Option String → Option String → InteractionRecord → Option String) :
    Except String (List Page) :=
  match pronounsList.lookup gender with
  | none => Except.error ("KeyError: " ++ gender)
  | some chosen =>
    let cd := child_description name gender
    let dd := detailedChildDesc name photo_description child_base_img_data descApi
    let c := Canvas.empty
    let c := c.setBg (1, 49/50, 9/10)
    let title_text := name ++ "'s Magical Ghibli Zoo Adventure"
    let c := c.drawText title_text
    let c := c.drawText title_text
    let c := c.drawText "A whimsical Studio Ghibli-style adventure"
    let c := match user_image with
             | some d => c.drawImage d
             | none => c
    let c := c.drawText ("Created especially for " ++ name)
    let c := c.drawText "April 2025"
    let c := c.showPage
    let c := c.setBg (colorAt page_colors 0)
    let c := c.drawText "The Adventure Begins..."
    let c := c.drawText "Once upon a time, in a house filled with dreams,"
    let c := c.drawText (name ++ " wrote a special letter to the zoo.")
    let c := c.drawText (pyCapitalize chosen.subject ++ " asked them to send a perfect pet,")
    let c := c.drawText "and so their magical journey began..."
    let c := c.drawText "The Zoo"
    let c := c.drawText "Where magical animals"
    let c := c.drawText "were waiting to be discovered..."
    let c := c.showPage
    let c := animalLoop2 name cd photo_description page_colors
      (fun cdx pdx r => gen cdx pdx dd r) 0 story_data c
    let c := c.setBg (19/20, 49/50, 1)
    let c := c.drawText "The End"
    let c := c.drawText "The End"
    let c := c.drawText ("And finally, they sent " ++ name ++ " a...")
    let c := c.drawText "Perfect Pet!"
    let c := c.drawText ("It was just what " ++ chosen.subject ++ " wanted!")
    let c := c.drawText ("Hope you enjoyed your magical Ghibli adventure, " ++ name ++ "!")
    let c := c.drawText "Every story has a happy ending..."
    let c := c.showPage
    Except.ok c.pages

/-- Layout of `main3.py`'s `create_stylish_storybook` when the pronoun
lookup succeeds. -/
lemma create_stylish_storybook_v3_eq (name gender : String)
    (story_data : List InteractionRecord) (pd ui : Option String)
    (page_colors : List Color) (base : Option String) (descApi : Except Unit String)
    (gen : String → Option String → Option String → InteractionRecord → Option String)
    (chosen : Pronouns) (h : pronounsList.lookup gender = some chosen) :
    create_stylish_storybook_v3 name gender story_data pd ui page_colors base descApi gen =
      Except.ok (coverPage2 name ui :: introPage2 name chosen page_colors ::
        (((List.range story_data.length).zip story_data).map
            (fun p => animalPage2 name (child_description name gender) pd page_colors
              (fun cdx pdx r => gen cdx pdx (detailedChildDesc name pd base descApi) r)
              p.1 p.2) ++
          [endPage2 name chosen])) := by
  unfold create_stylish_storybook_v3
  rw [h]
  cases hui : ui <;>
    simp [Canvas.empty, Canvas.drawText, Canvas.drawImage, Canvas.setBg,
      Canvas.showPage, animalLoop2_pages, coverPage2, introPage2, endPage2, hui]

/-! ### The analyzer JSON and the driver pipeline

`analyze_story` returns raw JSON text which the button handler parses with
`json.loads` and scans for the interaction sequence.  The handler code
(`main.py` lines 222-319) is line-identical in `main2.py` and `main3.py` for
everything modelled here; it is embedded once. -/

/-- A parsed JSON value (`json.loads` output).  Object fields keep the
parser's insertion order, matching Python dict iteration order. -/
inductive JsonValue where
  | null
  | bool (b : Bool)
  | num (n : Int)
  | str (s : String)
  | arr (items : List JsonValue)
  | obj (fields : List (String × JsonValue))
deriving Repr

/-- `isinstance(value, list) and len(value) > 0`. -/
def isNonEmptyList : JsonValue → Bool
  | JsonValue.arr (_ :: _) => true
  | _ => false

/-- The story-data selection of the button handler (`main.py` lines 248-257,
`main2.py` lines 489-498, `main3.py` lines 656-665): use the value of the
`'interactions'` key when present; otherwise the value of the first key (in
object order) holding a non-empty list; otherwise raise
`ValueError("Could not find animal interaction data in the API response")`
(fatal: the outer handler reports it and no document is produced). -/
def selectStoryData (parsed : List (String × JsonValue)) : Except String JsonValue :=
  match parsed.lookup "interactions" with
  | some v => Except.ok v
  | none =>
    match parsed.find? (fun kv => isNonEmptyList kv.2) with
    | some kv => Except.ok kv.2
    | none => Except.error "Could not find animal interaction data in the API response"

/-- Field access on one interaction entry (`animal_data['animal']`,
`animal_data['description']`, `animal_data['interaction']`).  `none` models
the `KeyError`/`TypeError` a malformed entry raises when formatted. -/
def toInteractionRecord : JsonValue → Option InteractionRecord
  | JsonValue.obj fields =>
    match fields.lookup "animal", fields.lookup "description",
        fields.lookup "interaction" with
    | some (JsonValue.str a), some (JsonValue.str d), some (JsonValue.str i) =>
      some ⟨a, d, i⟩
    | _, _, _ => none
  | _ => none

/-- The selected story data as interaction records.  In the source the field
accesses happen record by record inside the assembler loop; a malformed
record aborts the run there (the partially drawn buffer is discarded by the
outer handler), which this model conservatively checks before assembly. -/
def storyToRecords : JsonValue → Option (List InteractionRecord)
  | JsonValue.arr items => items.mapM toInteractionRecord
  | _ => none

/-- The `main.py` button-handler pipeline (lines 222-319): one `try` block
running extraction → analysis → JSON parse → story-data selection → optional
photo description → `create_storybook`; any raised error lands in the outer
`except`, which reports it and produces no document.  External outcomes are
parameters: `pdfPages` (the uploaded PDF), `analysisResult` (`analyze_story`
return), `jsonParse` (`json.loads`), `photo` (uploaded photo bytes),
`photoDescApi` (the photo-description chat call, `Except.error` = raised
network/HTTP error), `gen` (the scene generator).  The second component
records which external calls were issued, in order. -/
def runPipeline (pdfPages : Option (List String)) (analysisResult : Option String)
    (jsonParse : String → Option (List (String × JsonValue)))
    (photo : Option String) (photoDescApi : Except Unit String)
    (nameInput gender : String)
    (gen : String → Option String → InteractionRecord → Option String) :
    Except String (List Page) × List String :=
  let calls := ["extract_text_from_pdf"]
  match extract_text_from_pdf pdfPages with
  | none => (Except.error "Couldn't extract text from PDF", calls)
  | some story_text =>
    if story_text = "" then (Except.error "Couldn't extract text from PDF", calls)
    else
      let calls := calls ++ ["analyze_story"]
      match analysisResult with
      | none => (Except.error "Couldn't analyze story structure", calls)
      | some ar =>
        if ar = "" then (Except.error "Couldn't analyze story structure", calls)
        else
          match jsonParse ar with
          | none => (Except.error "json.loads failed", calls)
          | some parsed =>
            match selectStoryData parsed with
            | Except.error e => (Except.error e, calls)
            | Except.ok sdJson =>
              match storyToRecords sdJson with
              | none => (Except.error "KeyError: interaction record field", calls)
              | some story_data =>
                match photo with
                | none =>
                  (Except.ok (create_storybook
                      (if nameInput ≠ "" then nameInput else "Aanya")
                      gender story_data none none gen),
                   calls)
                | some photoData =>
                  let calls := calls ++ ["photo_description_request"]
                  match photoDescApi with
                  | Except.error _ => (Except.error "photo description request failed", calls)
                  | Except.ok desc =>
                    (Except.ok (create_storybook
                        (if nameInput ≠ "" then nameInput else "Aanya")
                        gender story_data (some desc) (some photoData) gen),
                     calls)

/-- `Except.error`-ness as a boolean (the run aborted, no document). -/
def isError : Except String (List Page) → Bool
  | Except.error _ => true
  | Except.ok _ => false

/-! ### Extractor lemmas -/

lemma intercalate_go_append (s : String) (l : List String) :
    ∀ a b : String,
      String.intercalate.go (a ++ b) s l = a ++ String.intercalate.go b s l := by
  induction l with
  | nil => intro a b; simp [String.intercalate.go]
  | cons x xs ih =>
    intro a b
    show String.intercalate.go (a ++ b ++ s ++ x) s xs =
      a ++ String.intercalate.go (b ++ s ++ x) s xs
    rw [String.append_assoc, String.append_assoc, ih a (b ++ (s ++ x))]
    simp [String.append_assoc]

lemma intercalate_cons_cons (s a b : String) (l : List String) :
    String.intercalate s (a :: b :: l) =
      a ++ s ++ String.intercalate s (b :: l) := by
  show String.intercalate.go a s (b :: l) = a ++ s ++ String.intercalate.go b s l
  show String.intercalate.go (a ++ s ++ b) s l = a ++ s ++ String.intercalate.go b s l
  rw [String.append_assoc, intercalate_go_append s l a (s ++ b),
    intercalate_go_append s l s b, ← String.append_assoc]

lemma extract_foldl_acc (l : List String) :
    ∀ t : String,
      l.foldl (fun t p => t ++ p ++ "\n") t =
        t ++ l.foldl (fun t p => t ++ p ++ "\n") "" := by
  induction l with
  | nil => intro t; simp
  | cons x xs ih =>
    intro t
    rw [List.foldl_cons, List.foldl_cons, ih (t ++ x ++ "\n"), ih ("" ++ x ++ "\n")]
    simp [String.append_assoc]

/-! ### Shared helper lemmas for the claim theorems -/

lemma zip_range_getElem? {α : Type} (l : List α) (i : Nat) (x : α)
    (h : l[i]? = some x) :
    ((List.range l.length).zip l)[i]? = some (i, x) := by
  have hi : i < l.length := (List.getElem?_eq_some.mp h).1
  rw [List.getElem?_eq_getElem (by simp; omega)]
  have hx : l[i] = x := by
    rw [List.getElem?_eq_getElem hi] at h
    exact Option.some.inj h
  simp [List.getElem_zip, List.getElem_range, hx]

/-- A record list used to instantiate witnesses (shape taken from the prompt
example in `analyze_story`). -/
def sampleRecord : InteractionRecord :=
  ⟨"elephant", "too big", "The child measured the elephant with a tape measure"⟩

/-- Five well-formed records, for the `N = 5` instantiations. -/
def sampleStory5 : List InteractionRecord :=
  [sampleRecord,
   ⟨"giraffe", "too tall", "The child looked up at the giraffe with wonder"⟩,
   ⟨"lion", "too fierce", "The child roared back at the lion"⟩,
   ⟨"camel", "too grumpy", "The child offered the camel a snack"⟩,
   ⟨"frog", "too jumpy", "The child hopped along with the frog"⟩]

/-! ### C1 -/

/-- **C1.** For every analyzed story sequence of exactly `N` well-formed
interaction records, the assembler emits exactly `N` animal pages plus one
cover, one intro and one end page (`N + 3` total), the animal pages in the
sequence's original order between the intro and the end page.  Stated for
`create_storybook` (`main.py`) and, when the pronoun lookup succeeds, for
`create_stylish_storybook` (`main2.py`). -/
theorem c1_storybook_page_count_and_order
    (name gender : String) (story_data : List InteractionRecord)
    (pd ui : Option String) (page_colors : List Color)
    (gen : String → Option String → InteractionRecord → Option String)
    (chosen : Pronouns) (hg : pronounsList.lookup gender = some chosen) :
    ((create_storybook name gender story_data pd ui gen).length =
        story_data.length + 3 ∧
      create_storybook name gender story_data pd ui gen =
        coverPage1 name ui :: introPage1 name ::
          (story_data.map (animalPage1 name (child_description name gender) pd gen) ++
            [endPage1 name])) ∧
    (create_stylish_storybook name gender story_data pd ui page_colors gen =
        Except.ok (coverPage2 name ui :: introPage2 name chosen page_colors ::
          (((List.range story_data.length).zip story_data).map
              (fun p => animalPage2 name (child_description name gender) pd
                page_colors gen p.1 p.2) ++
            [endPage2 name chosen])) ∧
      ∀ pages,
        create_stylish_storybook name gender story_data pd ui page_colors gen =
          Except.ok pages →
        pages.length = story_data.length + 3) := by
  refine ⟨⟨?_, create_storybook_eq name gender story_data pd ui gen⟩,
    create_stylish_storybook_eq name gender story_data pd ui page_colors gen chosen hg,
    ?_⟩
  · rw [create_storybook_eq]
    simp
  · intro pages hp
    rw [create_stylish_storybook_eq name gender story_data pd ui page_colors gen chosen hg]
      at hp
    cases hp
    simp

/-- Witness for C1 at `N = 5`: both assemblers emit `5 + 3 = 8` pages. -/
theorem c1_witness :
    (create_storybook "Aanya" "she/her" sampleStory5 none none
        (fun _ _ _ => none)).length = 5 + 3 ∧
    ∀ pages,
      create_stylish_storybook "Aanya" "she/her" sampleStory5 none none
        PASTEL_COLORS (fun _ _ _ => none) = Except.ok pages →
      pages.length = 5 + 3 :=
  ⟨(c1_storybook_page_count_and_order "Aanya" "she/her" sampleStory5 none none
      PASTEL_COLORS (fun _ _ _ => none) ⟨"she", "her", "her"⟩ rfl).1.1,
   (c1_storybook_page_count_and_order "Aanya" "she/her" sampleStory5 none none
      PASTEL_COLORS (fun _ _ _ => none) ⟨"she", "her", "her"⟩ rfl).2.2⟩

/-! ### C3 -/

/-- **C3.** For every record whose illustration request fails (the scene
generator returns the failure signal `none`), the assembler still emits that
record's page with the three story text lines and the literal
`"[Illustration not available]"` placeholder instead of an image, and all
remaining pages are still produced (the page count stays `N + 3`).  Stated
for `create_storybook` (`main.py`, page index `2 + i`) and
`create_stylish_storybook` (`main2.py`, same position, with its decorative
header and page-number texts around the three lines). -/
theorem c3_failed_illustration_placeholder
    (name gender : String) (story_data : List InteractionRecord)
    (pd ui : Option String) (page_colors : List Color)
    (gen : String → Option String → InteractionRecord → Option String)
    (i : Nat) (r : InteractionRecord)
    (hr : story_data[i]? = some r)
    (hfail : gen (child_description name gender) pd r = none) :
    ((create_storybook name gender story_data pd ui gen)[2 + i]? =
        some ⟨none,
          [DrawOp.text ("They sent " ++ name ++ " a " ++ r.animal ++ "..."),
           DrawOp.text ("but it was " ++ r.description ++ "!"),
           DrawOp.text r.interaction,
           DrawOp.text "[Illustration not available]"]⟩ ∧
      (create_storybook name gender story_data pd ui gen).length =
        story_data.length + 3) ∧
    (∀ chosen, pronounsList.lookup gender = some chosen →
      ∀ pages,
        create_stylish_storybook name gender story_data pd ui page_colors gen =
          Except.ok pages →
        pages[2 + i]? =
          some ⟨some (colorAt page_colors (i % page_colors.length)),
            [DrawOp.text ("The " ++ pyTitle r.animal),
             DrawOp.text ("They sent " ++ name ++ " a " ++ r.animal ++ "..."),
             DrawOp.text ("But it was " ++ r.description ++ "!"),
             DrawOp.text r.interaction,
             DrawOp.text "[Illustration not available]",
             DrawOp.text (toString (i + 1))]⟩ ∧
        pages.length = story_data.length + 3) := by
  have hi : i < story_data.length := (List.getElem?_eq_some.mp hr).1
  constructor
  · constructor
    · rw [create_storybook_eq]
      have hidx : 2 + i = i + 1 + 1 := by omega
      rw [hidx, List.getElem?_cons_succ, List.getElem?_cons_succ,
        List.getElem?_append_left (by simp; omega), List.getElem?_map, hr]
      simp [animalPage1, hfail]
    · rw [create_storybook_eq]
      simp
  · intro chosen hg pages hp
    rw [create_stylish_storybook_eq name gender story_data pd ui page_colors gen chosen hg]
      at hp
    cases hp
    constructor
    · have hidx : 2 + i = i + 1 + 1 := by omega
      rw [hidx, List.getElem?_cons_succ, List.getElem?_cons_succ,
        List.getElem?_append_left (by simp; omega), List.getElem?_map,
        zip_range_getElem? story_data i r hr]
      simp [animalPage2, hfail]
    · simp

/-- Witness for C3: one record, failing generator; the animal page carries
the three text lines and the placeholder. -/
theorem c3_witness :
    (create_storybook "Aanya" "she/her" [sampleRecord] none none
        (fun _ _ _ => none))[2 + 0]? =
      some ⟨none,
        [DrawOp.text ("They sent " ++ "Aanya" ++ " a " ++ sampleRecord.animal ++ "..."),
         DrawOp.text ("but it was " ++ sampleRecord.description ++ "!"),
         DrawOp.text sampleRecord.interaction,
         DrawOp.text "[Illustration not available]"]⟩ :=
  (c3_failed_illustration_placeholder "Aanya" "she/her" [sampleRecord] none none
      PASTEL_COLORS (fun _ _ _ => none) 0 sampleRecord rfl rfl).1.1

lemma getLast?_cons_cons_append {α : Type} (a b e : α) (l : List α) :
    (a :: b :: (l ++ [e])).getLast? = some e := by
  rw [← List.cons_append, ← List.cons_append, List.getLast?_concat]

/-! ### C8 -/

/-- **C8.** For the pronoun set `'he/him'`, the fixed lookup table yields the
record `{subject := "he", object := "him", possessive := "his"}`, and every
templated sentence of the assembled document that uses a pronoun placeholder
renders with it: the two such sentences are the intro page's
`{subject.capitalize()} asked them to send a perfect pet,` and the end
page's `It was just what {subject} wanted!`, which render as
`He asked ...` and `... what he wanted!` in both stylish variants
(`main2.py` and `main3.py`); no other templated sentence of any page uses a
`subject`/`object`/`possessive` placeholder (`main.py` defines a reduced
table `{subject, object}` and renders no pronoun sentence at all). -/
theorem c8_pronoun_substitution
    (name : String) (story_data : List InteractionRecord)
    (pd ui : Option String) (page_colors : List Color)
    (gen : String → Option String → InteractionRecord → Option String)
    (base : Option String) (descApi : Except Unit String)
    (gen3 : String → Option String → Option String → InteractionRecord → Option String) :
    pronounsList.lookup "he/him" = some ⟨"he", "him", "his"⟩ ∧
    (introPage2 name ⟨"he", "him", "his"⟩ page_colors).ops[3]? =
      some (DrawOp.text "He asked them to send a perfect pet,") ∧
    (endPage2 name ⟨"he", "him", "his"⟩).ops[4]? =
      some (DrawOp.text "It was just what he wanted!") ∧
    (∀ pages,
      create_stylish_storybook name "he/him" story_data pd ui page_colors gen =
        Except.ok pages →
      pages[1]? = some (introPage2 name ⟨"he", "him", "his"⟩ page_colors) ∧
      pages.getLast? = some (endPage2 name ⟨"he", "him", "his"⟩)) ∧
    (∀ pages,
      create_stylish_storybook_v3 name "he/him" story_data pd ui page_colors
        base descApi gen3 = Except.ok pages →
      pages[1]? = some (introPage2 name ⟨"he", "him", "his"⟩ page_colors) ∧
      pages.getLast? = some (endPage2 name ⟨"he", "him", "his"⟩)) := by
  refine ⟨rfl, by simp [introPage2, pyCapitalize], by simp [endPage2], ?_, ?_⟩
  · intro pages hp
    rw [create_stylish_storybook_eq name "he/him" story_data pd ui page_colors gen
      ⟨"he", "him", "his"⟩ rfl] at hp
    cases hp
    exact ⟨by simp, getLast?_cons_cons_append _ _ _ _⟩
  · intro pages hp
    rw [create_stylish_storybook_v3_eq name "he/him" story_data pd ui page_colors
      base descApi gen3 ⟨"he", "him", "his"⟩ rfl] at hp
    cases hp
    exact ⟨by simp, getLast?_cons_cons_append _ _ _ _⟩

/-- The document `create_stylish_storybook` produces for the C8 witness
inputs. -/
def c8DocAanya : List Page :=
  coverPage2 "Aanya" none ::
    introPage2 "Aanya" ⟨"he", "him", "his"⟩ PASTEL_COLORS ::
    ((((List.range ([sampleRecord] : List InteractionRecord).length).zip
          [sampleRecord]).map
        (fun p => animalPage2 "Aanya" (child_description "Aanya" "he/him") none
          PASTEL_COLORS (fun _ _ _ => none) p.1 p.2)) ++
      [endPage2 "Aanya" ⟨"he", "him", "his"⟩])

/-- Witness for C8 at concrete inputs: the assembled document's intro page
and end page carry the `he`-rendered sentences. -/
theorem c8_witness :
    create_stylish_storybook "Aanya" "he/him" [sampleRecord] none none
        PASTEL_COLORS (fun _ _ _ => none) = Except.ok c8DocAanya ∧
    c8DocAanya[1]? = some (introPage2 "Aanya" ⟨"he", "him", "his"⟩ PASTEL_COLORS) ∧
    c8DocAanya.getLast? = some (endPage2 "Aanya" ⟨"he", "him", "his"⟩) ∧
    (introPage2 "Aanya" ⟨"he", "him", "his"⟩ PASTEL_COLORS).ops[3]? =
      some (DrawOp.text "He asked them to send a perfect pet,") ∧
    (endPage2 "Aanya" ⟨"he", "him", "his"⟩).ops[4]? =
      some (DrawOp.text "It was just what he wanted!") := by
  have hdoc : create_stylish_storybook "Aanya" "he/him" [sampleRecord] none none
      PASTEL_COLORS (fun _ _ _ => none) = Except.ok c8DocAanya :=
    create_stylish_storybook_eq "Aanya" "he/him" [sampleRecord] none none
      PASTEL_COLORS (fun _ _ _ => none) ⟨"he", "him", "his"⟩ rfl
  have h := c8_pronoun_substitution "Aanya" [sampleRecord] none none PASTEL_COLORS
    (fun _ _ _ => none) none (Except.ok "") (fun _ _ _ _ => none)
  have hmain := h.2.2.2.1 c8DocAanya hdoc
  exact ⟨hdoc, hmain.1, hmain.2, h.2.1, h.2.2.1⟩

/-! ### C9 -/

/-- **C9.** The stylish assemblers are total only on the three pronoun-set
values: for any other gender string the pronoun-table lookup, the first
statement of assembly, raises `KeyError` before any page is drawn (the
result is the error and no page list); for the three enum values assembly
succeeds.  Stated for `create_stylish_storybook` (`main2.py`) and the
`main3.py` variant. -/
theorem c9_pronoun_enum_precondition (gender : String) :
    (gender ≠ "she/her" → gender ≠ "he/him" → gender ≠ "they/them" →
      ∀ (name : String) (story_data : List InteractionRecord)
        (pd ui : Option String) (page_colors : List Color)
        (base : Option String) (descApi : Except Unit String)
        (gen : String → Option String → InteractionRecord → Option String)
        (gen3 : String → Option String → Option String → InteractionRecord → Option String),
        create_stylish_storybook name gender story_data pd ui page_colors gen =
          Except.error ("KeyError: " ++ gender) ∧
        create_stylish_storybook_v3 name gender story_data pd ui page_colors
          base descApi gen3 = Except.error ("KeyError: " ++ gender)) ∧
    ((gender = "she/her" ∨ gender = "he/him" ∨ gender = "they/them") →
      ∀ (name : String) (story_data : List InteractionRecord)
        (pd ui : Option String) (page_colors : List Color)
        (base : Option String) (descApi : Except Unit String)
        (gen : String → Option String → InteractionRecord → Option String)
        (gen3 : String → Option String → Option String → InteractionRecord → Option String),
        (∃ pages, create_stylish_storybook name gender story_data pd ui
          page_colors gen = Except.ok pages) ∧
        (∃ pages, create_stylish_storybook_v3 name gender story_data pd ui
          page_colors base descApi gen3 = Except.ok pages)) := by
  constructor
  · intro h1 h2 h3 name story_data pd ui page_colors base descApi gen gen3
    have hl : pronounsList.lookup gender = none := by
      simp only [pronounsList, List.lookup]
      rw [beq_eq_false_iff_ne.mpr h1, beq_eq_false_iff_ne.mpr h2,
        beq_eq_false_iff_ne.mpr h3]
    constructor
    · unfold create_stylish_storybook
      rw [hl]
    · unfold create_stylish_storybook_v3
      rw [hl]
  · intro h name story_data pd ui page_colors base descApi gen gen3
    rcases h with rfl | rfl | rfl
    all_goals
      exact ⟨⟨_, create_stylish_storybook_eq name _ story_data pd ui page_colors gen _ rfl⟩,
        ⟨_, create_stylish_storybook_v3_eq name _ story_data pd ui page_colors base
          descApi gen3 _ rfl⟩⟩

/-- Witness for C9: the gender string `"xe/xem"` is rejected by both stylish
assemblers with the `KeyError`, producing no pages. -/
theorem c9_witness :
    create_stylish_storybook "Aanya" "xe/xem" [sampleRecord] none none
        PASTEL_COLORS (fun _ _ _ => none) =
      Except.error ("KeyError: " ++ "xe/xem") ∧
    create_stylish_storybook_v3 "Aanya" "xe/xem" [sampleRecord] none none
        PASTEL_COLORS none (Except.ok "") (fun _ _ _ _ => none) =
      Except.error ("KeyError: " ++ "xe/xem") :=
  (c9_pronoun_enum_precondition "xe/xem").1 (by decide) (by decide) (by decide)
    "Aanya" [sampleRecord] none none PASTEL_COLORS none (Except.ok "")
    (fun _ _ _ => none) (fun _ _ _ _ => none)

/-! ### C10 -/

/-- **C10.** In the shuffled-palette variants (`main2.py` and `main3.py`),
the intro page and the first animal page get the same background color: the
intro uses `page_colors[0]` and animal page `i` uses
`page_colors[i % len(page_colors)]`, so `i = 0` coincides with the intro's
color — the first entry of the once-shuffled palette (any permutation of
`PASTEL_COLORS`). -/
theorem c10_intro_first_animal_same_bg
    (name gender : String) (story_data : List InteractionRecord)
    (pd ui : Option String) (page_colors : List Color)
    (gen : String → Option String → InteractionRecord → Option String)
    (gen3 : String → Option String → Option String → InteractionRecord → Option String)
    (base : Option String) (descApi : Except Unit String)
    (chosen : Pronouns) (hg : pronounsList.lookup gender = some chosen)
    (hperm : page_colors.Perm PASTEL_COLORS) (hsd : story_data ≠ []) :
    (∀ pages,
      create_stylish_storybook name gender story_data pd ui page_colors gen =
        Except.ok pages →
      pages[1]?.map Page.bg = some (some (colorAt page_colors 0)) ∧
      pages[2]?.map Page.bg = some (some (colorAt page_colors 0))) ∧
    (∀ pages,
      create_stylish_storybook_v3 name gender story_data pd ui page_colors
        base descApi gen3 = Except.ok pages →
      pages[1]?.map Page.bg = some (some (colorAt page_colors 0)) ∧
      pages[2]?.map Page.bg = some (some (colorAt page_colors 0))) := by
  obtain ⟨r, rest, rfl⟩ := List.exists_cons_of_ne_nil hsd
  have h0 := zip_range_getElem? (r :: rest) 0 r (by simp)
  constructor
  · intro pages hp
    rw [create_stylish_storybook_eq name gender (r :: rest) pd ui page_colors gen
      chosen hg] at hp
    cases hp
    constructor
    · simp [introPage2]
    · have h2 : (2 : Nat) = 0 + 1 + 1 := rfl
      rw [h2, List.getElem?_cons_succ, List.getElem?_cons_succ,
        List.getElem?_append_left (by simp), List.getElem?_map, h0]
      simp [animalPage2, Nat.zero_mod]
  · intro pages hp
    rw [create_stylish_storybook_v3_eq name gender (r :: rest) pd ui page_colors
      base descApi gen3 chosen hg] at hp
    cases hp
    constructor
    · simp [introPage2]
    · have h2 : (2 : Nat) = 0 + 1 + 1 := rfl
      rw [h2, List.getElem?_cons_succ, List.getElem?_cons_succ,
        List.getElem?_append_left (by simp), List.getElem?_map, h0]
      simp [animalPage2, Nat.zero_mod]

/-- The document `create_stylish_storybook` produces for the C10 witness
inputs. -/
def c10DocAanya : List Page :=
  coverPage2 "Aanya" none ::
    introPage2 "Aanya" ⟨"she", "her", "her"⟩ PASTEL_COLORS ::
    ((((List.range ([sampleRecord] : List InteractionRecord).length).zip
          [sampleRecord]).map
        (fun p => animalPage2 "Aanya" (child_description "Aanya" "she/her") none
          PASTEL_COLORS (fun _ _ _ => none) p.1 p.2)) ++
      [endPage2 "Aanya" ⟨"she", "her", "her"⟩])

/-- Witness for C10: with the identity shuffle and one record, the intro
page (index 1) and the first animal page (index 2) of the assembled document
both carry the palette's first color. -/
theorem c10_witness :
    c10DocAanya[1]?.map Page.bg = some (some (colorAt PASTEL_COLORS 0)) ∧
    c10DocAanya[2]?.map Page.bg = some (some (colorAt PASTEL_COLORS 0)) := by
  have hdoc : create_stylish_storybook "Aanya" "she/her" [sampleRecord] none none
      PASTEL_COLORS (fun _ _ _ => none) = Except.ok c10DocAanya :=
    create_stylish_storybook_eq "Aanya" "she/her" [sampleRecord] none none
      PASTEL_COLORS (fun _ _ _ => none) ⟨"she", "her", "her"⟩ rfl
  exact (c10_intro_first_animal_same_bg "Aanya" "she/her" [sampleRecord] none none
    PASTEL_COLORS (fun _ _ _ => none) (fun _ _ _ _ => none) none (Except.ok "")
    ⟨"she", "her", "her"⟩ rfl (List.Perm.refl _) (by decide)).1 c10DocAanya hdoc

/-! ### C2 -/

/-- **C2.** Story-data selection from the parsed analyzer JSON: if the
top-level key `'interactions'` is present its value is used; otherwise the
value of the first top-level key (in object order) mapping to a non-empty
list is used; and if, in that fallback scan, no top-level value is a
non-empty list, the run fails with the fatal
`Could not find animal interaction data in the API response` error and the
pipeline produces no document. -/
theorem c2_story_data_selection (parsed : List (String × JsonValue)) :
    (∀ v, parsed.lookup "interactions" = some v →
      selectStoryData parsed = Except.ok v) ∧
    (parsed.lookup "interactions" = none →
      (∀ kv, parsed.find? (fun kv => isNonEmptyList kv.2) = some kv →
        selectStoryData parsed = Except.ok kv.2) ∧
      (parsed.find? (fun kv => isNonEmptyList kv.2) = none →
        selectStoryData parsed =
          Except.error "Could not find animal interaction data in the API response" ∧
        ∀ (pdfPages : Option (List String)) (ar : String)
          (jsonParse : String → Option (List (String × JsonValue)))
          (photo : Option String) (photoDescApi : Except Unit String)
          (nameInput gender : String)
          (gen : String → Option String → InteractionRecord → Option String)
          (t : String),
          extract_text_from_pdf pdfPages = some t → t ≠ "" → ar ≠ "" →
          jsonParse ar = some parsed →
          (runPipeline pdfPages (some ar) jsonParse photo photoDescApi
            nameInput gender gen).1 =
            Except.error "Could not find animal interaction data in the API response")) := by
  refine ⟨?_, ?_⟩
  · intro v hv
    unfold selectStoryData
    rw [hv]
  · intro hnone
    refine ⟨?_, ?_⟩
    · intro kv hkv
      unfold selectStoryData
      rw [hnone, hkv]
    · intro hfind
      have hsel : selectStoryData parsed =
          Except.error "Could not find animal interaction data in the API response" := by
        unfold selectStoryData
        rw [hnone, hfind]
      refine ⟨hsel, ?_⟩
      intro pdfPages ar jsonParse photo photoDescApi nameInput gender gen t
        hext hne har hjp
      simp [runPipeline, hext, hne, har, hjp, hsel]

/-- A parsed analyzer response with no `'interactions'` key and no non-empty
list value (used for the C2 witness). -/
def emptyParsed : List (String × JsonValue) :=
  [("note", JsonValue.str "no data"), ("items", JsonValue.arr [])]

/-- Witness for C2 in the fatal branch: selection fails and the pipeline
produces an error instead of a document. -/
theorem c2_witness :
    selectStoryData emptyParsed =
      Except.error "Could not find animal interaction data in the API response" ∧
    (runPipeline (some ["story"]) (some "raw")
        (fun s => if s = "raw" then some emptyParsed else none)
        none (Except.ok "") "Aanya" "she/her" (fun _ _ _ => none)).1 =
      Except.error "Could not find animal interaction data in the API response" := by
  have h := ((c2_story_data_selection emptyParsed).2 rfl).2 rfl
  exact ⟨h.1, h.2 (some ["story"]) "raw"
    (fun s => if s = "raw" then some emptyParsed else none) none (Except.ok "")
    "Aanya" "she/her" (fun _ _ _ => none) "story\n" rfl (by decide) (by decide)
    (by simp)⟩

/-! ### C5 -/

/-- **C5.** If the uploaded PDF is unreadable (`extract_text_from_pdf`
returns `None`) or yields the empty string, the pipeline reports the
extraction failure and performs no downstream calls: its call trace is just
the extraction and in particular `analyze_story` is never invoked, and no
document is produced. -/
theorem c5_empty_extraction_fatal
    (pdfPages : Option (List String))
    (h : extract_text_from_pdf pdfPages = none ∨
      extract_text_from_pdf pdfPages = some "")
    (analysisResult : Option String)
    (jsonParse : String → Option (List (String × JsonValue)))
    (photo : Option String) (photoDescApi : Except Unit String)
    (nameInput gender : String)
    (gen : String → Option String → InteractionRecord → Option String) :
    runPipeline pdfPages analysisResult jsonParse photo photoDescApi
        nameInput gender gen =
      (Except.error "Couldn't extract text from PDF", ["extract_text_from_pdf"]) ∧
    "analyze_story" ∉ (runPipeline pdfPages analysisResult jsonParse photo
      photoDescApi nameInput gender gen).2 := by
  have hrun : runPipeline pdfPages analysisResult jsonParse photo photoDescApi
      nameInput gender gen =
      (Except.error "Couldn't extract text from PDF", ["extract_text_from_pdf"]) := by
    rcases h with h | h <;> simp [runPipeline, h]
  refine ⟨hrun, ?_⟩
  rw [hrun]
  decide

/-- Witness for C5: an unreadable PDF stops the pipeline at extraction. -/
theorem c5_witness :
    runPipeline none none (fun _ => none) none (Except.ok "") "Aanya" "she/her"
        (fun _ _ _ => none) =
      (Except.error "Couldn't extract text from PDF", ["extract_text_from_pdf"]) :=
  (c5_empty_extraction_fatal none (Or.inl rfl) none (fun _ => none) none
    (Except.ok "") "Aanya" "she/her" (fun _ _ _ => none)).1

/-! ### C4 -/

/-- A parsed analyzer response holding one well-formed record under the
expected key. -/
def sampleParsed : List (String × JsonValue) :=
  [("interactions",
    JsonValue.arr [JsonValue.obj
      [("animal", JsonValue.str "elephant"),
       ("description", JsonValue.str "too big"),
       ("interaction",
        JsonValue.str "The child measured the elephant with a tape measure")]])]

/-- `json.loads` outcome for the C4 inputs. -/
def sampleJsonParse : String → Option (List (String × JsonValue)) :=
  fun s => if s = "analyzer json" then some sampleParsed else none

/-- **C4 (counterexample).** The claim says a failed photo-description call
is caught and the pipeline continues to build the storybook; in the code the
raised error propagates to the outer handler, which aborts the run.  At a
concrete input where everything upstream succeeds and a photo is supplied,
the failing photo-description call yields an error and no document — while
the identical input with a succeeding call yields the document, so the abort
is attributable to that call alone. -/
theorem c4_counterexample :
    (runPipeline (some ["story text"]) (some "analyzer json") sampleJsonParse
        (some "photo bytes") (Except.error ()) "Aanya" "she/her"
        (fun _ _ _ => some "img")).1 =
      Except.error "photo description request failed" ∧
    (runPipeline (some ["story text"]) (some "analyzer json") sampleJsonParse
        (some "photo bytes") (Except.ok "a description") "Aanya" "she/her"
        (fun _ _ _ => some "img")).1 =
      Except.ok (create_storybook "Aanya" "she/her" [sampleRecord]
        (some "a description") (some "photo bytes") (fun _ _ _ => some "img")) := by
  constructor <;> rfl

/-- **C4 (amended).** If the optional photo-description call fails, the
exception propagates to the outer handler, which reports it and aborts the
run: whenever a photo is supplied and the call fails, the pipeline never
produces a document.  (The pipeline builds the storybook without a photo
description only when no photo was supplied at all.) -/
theorem c4_photo_description_failure_aborts
    (pdfPages : Option (List String)) (analysisResult : Option String)
    (jsonParse : String → Option (List (String × JsonValue)))
    (p : String) (nameInput gender : String)
    (gen : String → Option String → InteractionRecord → Option String) :
    isError (runPipeline pdfPages analysisResult jsonParse (some p)
      (Except.error ()) nameInput gender gen).1 = true := by
  unfold runPipeline
  (repeat' split) <;> simp_all [isError]

/-! ### C6 -/

/-- **C6 (counterexample).** The extractor appends `"\n"` after every page,
so even a single-page document ends in a newline, while the claim's
"joined by newline" output does not: on the one-page input `["a"]` the code
yields `"a\n"`, not `"a"`. -/
theorem c6_counterexample :
    extract_text_from_pdf (some ["a"]) = some "a\n" ∧
    extractJoinSpec ["a"] = "a" ∧
    extract_text_from_pdf (some ["a"]) ≠ some (extractJoinSpec ["a"]) := by
  refine ⟨rfl, ?_, ?_⟩
  · simp [extractJoinSpec, String.intercalate, String.intercalate.go]
  · decide

lemma extract_foldl_eq (pages : List String) (h : pages ≠ []) :
    pages.foldl (fun t p => t ++ p ++ "\n") "" =
      String.intercalate "\n" pages ++ "\n" := by
  induction pages with
  | nil => exact absurd rfl h
  | cons p rest ih =>
    cases rest with
    | nil =>
      show ("" ++ p ++ "\n") = String.intercalate "\n" [p] ++ "\n"
      simp [String.intercalate, String.intercalate.go]
    | cons q ps =>
      rw [List.foldl_cons, extract_foldl_acc, ih (by simp),
        intercalate_cons_cons]
      simp [String.append_assoc]

/-- **C6 (amended).** For every readable PDF with at least one page, the
extractor's output is the per-page texts in document order joined by newline
*followed by a trailing newline* (the loop appends `"\n"` after each page's
text, including the last). -/
theorem c6_extractor_trailing_newline (pages : List String) (h : pages ≠ []) :
    extract_text_from_pdf (some pages) = some (extractJoinSpec pages ++ "\n") := by
  show some (pages.foldl (fun t p => t ++ p ++ "\n") "") =
    some (String.intercalate "\n" pages ++ "\n")
  rw [extract_foldl_eq pages h]

/-- Witness for C6 (amended) on a two-page document. -/
theorem c6_witness :
    extract_text_from_pdf (some ["a", "b"]) =
      some (extractJoinSpec ["a", "b"] ++ "\n") :=
  c6_extractor_trailing_newline ["a", "b"] (by decide)

/-! ### C7 -/

/-- **C7 (counterexample).** The claim says failure of *either* step of the
character-base setup is absorbed by substituting a hard-coded fallback
description string.  When the base-image generation itself fails, the code
sets `detailed_child_desc = None` (with a warning) and substitutes no
fallback string at all: at a concrete input with a failed base image the
resulting description is `none`, in particular neither of the two hard-coded
fallback strings. -/
theorem c7_counterexample :
    detailedChildDesc "Aanya" none none (Except.ok "a detailed description") =
      none ∧
    detailedChildDesc "Aanya" none none (Except.ok "a detailed description") ≠
      some (fallbackDescApi "Aanya") ∧
    detailedChildDesc "Aanya" none none (Except.ok "a detailed description") ≠
      some (fallbackDescLocal "Aanya") := by
  refine ⟨rfl, ?_, ?_⟩ <;> simp [detailedChildDesc]

/-- **C7 (amended).** In the `main3.py` variant: failure of the detailed
description step (the vision call raising) is absorbed with the hard-coded
fallback string; failure of the base-image step leaves the description
absent (`None`) rather than substituting a fallback string; in both cases
the component never aborts, and assembly always proceeds through scene
illustration to the full `N + 3`-page document. -/
theorem c7_fallback_behavior (name : String) (pd : Option String)
    (descApi : Except Unit String) (img : String) :
    detailedChildDesc name pd none descApi = none ∧
    detailedChildDesc name pd (some img) (Except.error ()) =
      some (fallbackDescApi name) ∧
    (∀ (gender : String) (story_data : List InteractionRecord)
      (ui : Option String) (page_colors : List Color) (base : Option String)
      (chosen : Pronouns)
      (gen3 : String → Option String → Option String → InteractionRecord → Option String),
      pronounsList.lookup gender = some chosen →
      create_stylish_storybook_v3 name gender story_data pd ui page_colors
          base descApi gen3 =
        Except.ok (coverPage2 name ui :: introPage2 name chosen page_colors ::
          (((List.range story_data.length).zip story_data).map
              (fun p => animalPage2 name (child_description name gender) pd
                page_colors
                (fun cdx pdx r =>
                  gen3 cdx pdx (detailedChildDesc name pd base descApi) r)
                p.1 p.2) ++
            [endPage2 name chosen])) ∧
      (coverPage2 name ui :: introPage2 name chosen page_colors ::
          (((List.range story_data.length).zip story_data).map
              (fun p => animalPage2 name (child_description name gender) pd
                page_colors
                (fun cdx pdx r =>
                  gen3 cdx pdx (detailedChildDesc name pd base descApi) r)
                p.1 p.2) ++
            [endPage2 name chosen])).length = story_data.length + 3) := by
  refine ⟨rfl, ?_, ?_⟩
  · have hne : fallbackDescApi name ≠ "" := by
      intro hc
      have hlen := congrArg String.length hc
      simp only [fallbackDescApi, String.length_append] at hlen
      have h14 : ("A child named " : String).length = 14 := rfl
      have h0 : ("" : String).length = 0 := rfl
      rw [h14, h0] at hlen
      omega
    simp [detailedChildDesc, generate_detailed_child_description, hne]
  · intro gender story_data ui page_colors base chosen gen3 hg
    exact ⟨create_stylish_storybook_v3_eq name gender story_data pd ui
      page_colors base descApi gen3 chosen hg, by simp⟩

/-- The document the `main3.py` assembler produces for the C7 witness
inputs (failed detailed-description call, one record). -/
def c7DocAanya : List Page :=
  coverPage2 "Aanya" none ::
    introPage2 "Aanya" ⟨"she", "her", "her"⟩ PASTEL_COLORS ::
    ((((List.range ([sampleRecord] : List InteractionRecord).length).zip
          [sampleRecord]).map
        (fun p => animalPage2 "Aanya" (child_description "Aanya" "she/her") none
          PASTEL_COLORS
          (fun cdx pdx r =>
            (fun _ _ _ _ => (none : Option String)) cdx pdx
              (detailedChildDesc "Aanya" none (some "baseimg") (Except.error ())) r)
          p.1 p.2)) ++
      [endPage2 "Aanya" ⟨"she", "her", "her"⟩])

/-- Witness for C7 (amended): with a present base image and a failing
description call the fallback string is used, and assembly still emits all
`1 + 3` pages. -/
theorem c7_witness :
    detailedChildDesc "Aanya" none (some "baseimg") (Except.error ()) =
      some (fallbackDescApi "Aanya") ∧
    create_stylish_storybook_v3 "Aanya" "she/her" [sampleRecord] none none
        PASTEL_COLORS (some "baseimg") (Except.error ())
        (fun _ _ _ _ => none) = Except.ok c7DocAanya ∧
    c7DocAanya.length = 1 + 3 := by
  have h := c7_fallback_behavior "Aanya" none (Except.error ()) "baseimg"
  have h3 := h.2.2 "she/her" [sampleRecord] none PASTEL_COLORS (some "baseimg")
    ⟨"she", "her", "her"⟩ (fun _ _ _ _ => none) rfl
  exact ⟨h.2.1, h3.1, h3.2⟩
